import Mathlib

/-!
Shallow embedding of the hahaha sidecar-shutdown controller
(src/actions.rs, src/api.rs, src/main.rs, src/prometheus.rs).

The external collaborators (the exec call, the port-forward tunnel and its
HTTP exchange, the audit-event recorder, and the pod field extractors
implemented in the modules outside the dispatch core) are modelled as
explicit result values supplied to the embedded functions; everything the
embedded functions do with those results is translated from the source.
Log messages containing an apostrophe in the source are transliterated
without one; only the log levels and event messages matter to the
properties proved below.
-/

namespace Hahaha

/-- Transport kind of a shutdown action: `actions.rs` has the two variants
`Exec` and `Portforward`, and `api.rs` branches on it as `action_type`. -/
inductive ActionType where
  | exec
  | portforward
deriving DecidableEq, Repr

/-- Shutdown-action descriptor, carrying the fields `api.rs` reads:
`command` for exec actions, `method`, `path` and `port` for port-forward
actions (the unused fields stay `none`, mirroring the source `unwrap`s
that are only reached on the populated variant). -/
structure Action where
  action_type : ActionType
  command : Option String := none
  method : Option String := none
  path : Option String := none
  port : Option Nat := none
deriving DecidableEq, Repr

/-- Action registry of `actions.rs::generate`, as an association list with
the entries of the source table (a `BTreeMap` in the source). -/
def generate : List (String × Action) :=
  [ ("cloudsql-proxy",
      { action_type := ActionType.portforward, method := some "POST",
        path := some "/quitquitquit", port := some 9091 }),
    ("vks-sidecar",
      { action_type := ActionType.exec, command := some "/bin/kill -s INT 1" }),
    ("istio-proxy",
      { action_type := ActionType.portforward, method := some "POST",
        path := some "/quitquitquit", port := some 15000 }),
    ("linkerd-proxy",
      { action_type := ActionType.portforward, method := some "POST",
        path := some "/shutdown", port := some 4191 }) ]

/-- Registry lookup, `actions.get(&sidecar_name)` in `main.rs`. -/
def lookupAction (acts : List (String × Action)) (name : String) : Option Action :=
  (acts.find? (fun p => p.1 == name)).map (fun p => p.2)

/-- Severity of a tracing log line (`info!`, `warn!`, `error!`). -/
inductive LogLevel where
  | info
  | warn
  | error
deriving DecidableEq, Repr

/-- One tracing log line. -/
structure LogEntry where
  level : LogLevel
  msg : String
deriving DecidableEq, Repr

/-- Results of the remote calls one dispatch can make, supplied by the
cluster: the exec call, the port-forward acquisition (including obtaining
the port stream, which the source unwraps), the HTTP handshake, the
request send (yielding the response status on success), and reading plus
UTF-8 decoding the response body. -/
structure Transport where
  execResult : Except String Unit
  portforwardResult : Except String Unit
  handshakeResult : Except String Unit
  sendRequestResult : Except String Nat
  bodyReadResult : Except String String

/-- Return value of a dispatch call together with the log lines it emits. -/
structure DispatchResult where
  result : Except String Unit
  logs : List LogEntry

/-- Embeds `api.rs::shutdown_exec`: the match on the exec call result
returns `Ok(())` from both arms, logging a transport error at error level
instead of returning it. -/
def shutdown_exec (t : Transport) (a : Action) (pod_name container_name : String) :
    DispatchResult :=
  let cmd := a.command.getD ""
  match t.execResult with
  | Except.ok _ =>
      { result := Except.ok (),
        logs := [⟨LogLevel.info,
          "Sent `" ++ cmd ++ "` to " ++ container_name ++ "@" ++ pod_name⟩] }
  | Except.error err =>
      { result := Except.ok (),
        logs := [⟨LogLevel.error,
          "Something bad happened while trying to exec into " ++ container_name ++
            "@" ++ pod_name ++ ": " ++ err⟩] }

/-- Embeds `api.rs::shutdown_portforward`: the `?` operator propagates
errors of the port-forward acquisition, the handshake, the request send
and (on a non-200 status) the body read / UTF-8 decode; a completed
exchange returns `Ok(())` whatever the status, logging a non-200 status
and its body at error level. -/
def shutdown_portforward (t : Transport) (a : Action) (pod_name container_name : String) :
    DispatchResult :=
  match t.portforwardResult with
  | Except.error e => { result := Except.error e, logs := [] }
  | Except.ok _ =>
    match t.handshakeResult with
    | Except.error e => { result := Except.error e, logs := [] }
    | Except.ok _ =>
      match t.sendRequestResult with
      | Except.error e => { result := Except.error e, logs := [] }
      | Except.ok status =>
        if status ≠ 200 then
          match t.bodyReadResult with
          | Except.error e => { result := Except.error e, logs := [] }
          | Except.ok body_str =>
              { result := Except.ok (),
                logs := [⟨LogLevel.error,
                  "HTTP request failed: code " ++ toString status ++ ": " ++ body_str⟩] }
        else
          { result := Except.ok (),
            logs := [⟨LogLevel.info,
              "Sent `" ++ a.method.getD "" ++ " " ++ a.path.getD "" ++ "` at port " ++
                toString (a.port.getD 0) ++ " to " ++ pod_name ++
                " (" ++ container_name ++ ")"⟩] }

/-- Embeds `api.rs::shutdown` (the `Destroyer` impl for `Api<Pod>`):
matches on the action type and delegates to the matching helper. -/
def shutdown (t : Transport) (a : Action) (pod_name container_name : String) :
    DispatchResult :=
  match a.action_type with
  | ActionType.exec => shutdown_exec t a pod_name container_name
  | ActionType.portforward => shutdown_portforward t a pod_name container_name

/-- Kind of an audit event handed to the recorder
(`recorder.info` / `recorder.warn`). -/
inductive EventKind where
  | info
  | warn
deriving DecidableEq, Repr

/-- One audit-event publish attempt. -/
structure Event where
  kind : EventKind
  message : String
deriving DecidableEq, Repr

/-- The four prometheus counters of `prometheus.rs`: each labelled counter
records the sequence of (container, job_name, namespace) label triples it
was incremented with; the process-wide event-post counter is a plain
count. -/
structure Counters where
  sidecar_shutdowns : List (String × String × String) := []
  failed_sidecar_shutdowns : List (String × String × String) := []
  unsupported_sidecars : List (String × String × String) := []
  total_unsuccessful_event_posts : Nat := 0
deriving DecidableEq, Repr

/-- Observable state threaded through the reconciliation loop: the
counters, the audit-publish attempts handed to the recorder, the sidecar
names on which `api.shutdown` was invoked, and the tracing log. -/
structure LoopState where
  counters : Counters := {}
  publishAttempts : List Event := []
  dispatchCalls : List String := []
  logs : List LogEntry := []
deriving DecidableEq, Repr

/-- Initial, empty loop state. -/
def state0 : LoopState := {}

/-- One running sidecar as the loop sees it: its container name, the
transport behaviour the cluster exhibits if this sidecar is dispatched,
and the result the recorder returns for the single audit publish the
loop may attempt for it. -/
structure SidecarObs where
  name : String
  transport : Transport
  publishResult : Except String Unit

/-- Embeds the per-sidecar body of the `for sidecar in running_sidecars`
loop of `main.rs`: registry lookup (a failed lookup only warns and
continues), dispatch via `api.shutdown`, then outcome reporting — on a
dispatch error one warning-event publish attempt, an increment of the
process-wide event-post counter when that publish fails, and one failure
counter increment; on dispatch success one info-event publish attempt and
a success counter increment only when that publish succeeds. -/
def processSidecar (acts : List (String × Action)) (pod_name ns job_name : String)
    (st : LoopState) (s : SidecarObs) : LoopState :=
  let n := s.name
  let st := { st with logs := st.logs ++ [(LogEntry.mk LogLevel.info ("Found " ++ n))] }
  match lookupAction acts n with
  | none =>
      { st with logs := st.logs ++ [(LogEntry.mk LogLevel.warn ("Unknown how to shut down " ++ n ++ " (in " ++ pod_name ++
            " in namespace " ++ ns ++ ")"))] }
  | some a =>
      let dres := shutdown s.transport a pod_name n
      let st := { st with dispatchCalls := st.dispatchCalls ++ [n],
                          logs := st.logs ++ dres.logs }
      match dres.result with
      | Except.error err =>
          let st := { st with
            logs := st.logs ++ [(LogEntry.mk LogLevel.error ("Could not shutdown: " ++ err))],
            publishAttempts := st.publishAttempts ++
              [(Event.mk EventKind.warn ("Unsuccessfully shut down container " ++ n ++ ": " ++ err))] }
          let st :=
            match s.publishResult with
            | Except.error e =>
                { st with
                  logs := st.logs ++
                    [(LogEntry.mk LogLevel.error ("Could not publish Kubernetes Event: " ++ e))],
                  counters := { st.counters with
                    total_unsuccessful_event_posts :=
                      st.counters.total_unsuccessful_event_posts + 1 } }
            | Except.ok _ => st
          { st with counters := { st.counters with
              failed_sidecar_shutdowns :=
                st.counters.failed_sidecar_shutdowns ++ [(n, job_name, ns)] } }
      | Except.ok _ =>
          let st := { st with publishAttempts := st.publishAttempts ++
            [(Event.mk EventKind.info ("Shut down container " ++ n))] }
          match s.publishResult with
          | Except.error e =>
              { st with logs := st.logs ++
                  [(LogEntry.mk LogLevel.error ("Could not publish Kubernetes Event: " ++ e))] }
          | Except.ok _ =>
              { st with counters := { st.counters with
                  sidecar_shutdowns :=
                    st.counters.sidecar_shutdowns ++ [(n, job_name, ns)] } }

/-- One pod snapshot as the loop sees it: name, optional namespace, and
the results of `pod.sidecars()` and `pod.job_name()` (both implemented in
modules outside the dispatch core and treated as inputs). -/
structure PodObs where
  pod_name : String
  nspace : Option String
  sidecarsResult : Except String (List SidecarObs)
  jobNameResult : Except String String

/-- Embeds one iteration of the `while let` loop of `main.rs` for one
delivered pod: sidecar extraction with `unwrap_or_else` logging the error
and yielding an empty list, the empty short-circuit, namespace defaulting
to "default", job-name derivation with skip-on-error, then the
per-sidecar loop in extraction order. -/
def processPod (acts : List (String × Action)) (st : LoopState) (pod : PodObs) : LoopState :=
  let p := pod.pod_name
  let pair : List SidecarObs × LoopState :=
    match pod.sidecarsResult with
    | Except.ok l => (l, st)
    | Except.error err =>
        ([], { st with logs := st.logs ++
          [(LogEntry.mk LogLevel.info ("Getting running sidecars for " ++ p ++ ": " ++ err))] })
  let running := pair.1
  let st := pair.2
  if running.isEmpty then st
  else
    let ns := pod.nspace.getD "default"
    let st := { st with logs := st.logs ++ [(LogEntry.mk LogLevel.info (p ++ " in namespace " ++ ns ++
        " needs help shutting down some residual containers!"))] }
    match pod.jobNameResult with
    | Except.error e =>
        { st with logs := st.logs ++
          [(LogEntry.mk LogLevel.warn ("Getting job name from pod: " ++ e))] }
    | Except.ok job_name =>
        running.foldl (processSidecar acts p ns job_name) st

/-- Outcome of the whole `main` loop: the result `main` returns, whether
the metrics-task shutdown was signalled (`shutdown.notify_one()`), whether
the metrics task was awaited (`prom.await`), and the final loop state. -/
structure MainOutcome where
  result : Except String Unit
  notified : Bool
  promAwaited : Bool
  state : LoopState

/-- Embeds the `while let Some(pod) = ew.try_next().await?` loop of
`main.rs` over a finite stream: a stream item that is an error propagates
through `?`, skipping the notify/await epilogue entirely; stream
exhaustion falls through to `shutdown.notify_one()` and `prom.await`. -/
def runMain (acts : List (String × Action)) :
    LoopState → List (Except String PodObs) → MainOutcome
  | st, [] =>
      { result := Except.ok (), notified := true, promAwaited := true, state := st }
  | st, Except.error e :: _ =>
      { result := Except.error e, notified := false, promAwaited := false, state := st }
  | st, Except.ok pod :: rest => runMain acts (processPod acts st pod) rest

/-! Concrete inputs used by the theorems below. -/

/-- The registry entry for `vks-sidecar`. -/
def vksAction : Action :=
  { action_type := ActionType.exec, command := some "/bin/kill -s INT 1" }

/-- The registry entry for `istio-proxy`. -/
def istioAction : Action :=
  { action_type := ActionType.portforward, method := some "POST",
    path := some "/quitquitquit", port := some 15000 }

/-- The registry entry for `linkerd-proxy`. -/
def linkerdAction : Action :=
  { action_type := ActionType.portforward, method := some "POST",
    path := some "/shutdown", port := some 4191 }

/-- Transport whose exec call fails; all other calls succeed with a 200. -/
def c1Transport : Transport :=
  { execResult := Except.error "connection reset",
    portforwardResult := Except.ok (), handshakeResult := Except.ok (),
    sendRequestResult := Except.ok 200, bodyReadResult := Except.ok "" }

/-- C1: the claim says an exec call that returns a transport-level error
makes `shutdown_exec` produce a `TransportFailure` (error) outcome.
Refuted: at a failing exec call the dispatch outcome is `Ok` (Success),
because `shutdown_exec` only logs the transport error. -/
theorem c1_counterexample :
    c1Transport.execResult = Except.error "connection reset" ∧
    (shutdown_exec c1Transport vksAction "pod-1" "vks-sidecar").result = Except.ok () :=
  ⟨rfl, rfl⟩

/-- C1 (amended): `shutdown_exec` yields a Success outcome for every
transport behaviour — a transport error as much as a transport success —
and a transport error leaves exactly one error-level log line. -/
theorem c1_exec_always_success (t : Transport) (a : Action) (p c : String) :
    (shutdown_exec t a p c).result = Except.ok () ∧
    (∀ err, t.execResult = Except.error err →
      (shutdown_exec t a p c).logs.map LogEntry.level = [LogLevel.error]) := by
  constructor
  · cases h : t.execResult <;> simp [shutdown_exec, h]
  · intro err h
    simp [shutdown_exec, h]

/-- Witness for `c1_exec_always_success` at a concrete failing exec call. -/
theorem c1_exec_always_success_witness :
    (shutdown_exec c1Transport vksAction "pod-1" "vks-sidecar").result = Except.ok () ∧
    (shutdown_exec c1Transport vksAction "pod-1" "vks-sidecar").logs.map LogEntry.level =
      [LogLevel.error] :=
  ⟨(c1_exec_always_success c1Transport vksAction "pod-1" "vks-sidecar").1,
   (c1_exec_always_success c1Transport vksAction "pod-1" "vks-sidecar").2
     "connection reset" rfl⟩

/-- Transport reaching a completed HTTP exchange with status 503. -/
def c2Transport : Transport :=
  { execResult := Except.ok (), portforwardResult := Except.ok (),
    handshakeResult := Except.ok (), sendRequestResult := Except.ok 503,
    bodyReadResult := Except.ok "service unavailable" }

/-- C2: the claim says every HTTP status other than 200 yields a
`TransportFailure` outcome. Refuted: a completed exchange with status 503
(and a readable body) yields an `Ok` (Success) outcome — the non-200
status is only logged. -/
theorem c2_counterexample :
    c2Transport.sendRequestResult = Except.ok 503 ∧
    (shutdown_portforward c2Transport istioAction "pod-1" "istio-proxy").result =
      Except.ok () :=
  ⟨rfl, rfl⟩

/-- C2 (amended): classification of `shutdown_portforward`. A failure of
the port-forward acquisition, the handshake, or the request send yields
that error (`TransportFailure`); a completed exchange with status 200
yields Success; a completed exchange with any other status whose body is
readable also yields Success, leaving exactly one error-level log line
(a body-read failure yields that error instead). -/
theorem c2_portforward_classification (t : Transport) (a : Action) (p c : String) :
    (∀ e, t.portforwardResult = Except.error e →
        (shutdown_portforward t a p c).result = Except.error e) ∧
    (∀ e, t.portforwardResult = Except.ok () → t.handshakeResult = Except.error e →
        (shutdown_portforward t a p c).result = Except.error e) ∧
    (∀ e, t.portforwardResult = Except.ok () → t.handshakeResult = Except.ok () →
        t.sendRequestResult = Except.error e →
        (shutdown_portforward t a p c).result = Except.error e) ∧
    (t.portforwardResult = Except.ok () → t.handshakeResult = Except.ok () →
        t.sendRequestResult = Except.ok 200 →
        (shutdown_portforward t a p c).result = Except.ok ()) ∧
    (∀ s b, t.portforwardResult = Except.ok () → t.handshakeResult = Except.ok () →
        t.sendRequestResult = Except.ok s → s ≠ 200 → t.bodyReadResult = Except.ok b →
        (shutdown_portforward t a p c).result = Except.ok () ∧
        (shutdown_portforward t a p c).logs.map LogEntry.level = [LogLevel.error]) ∧
    (∀ s e, t.portforwardResult = Except.ok () → t.handshakeResult = Except.ok () →
        t.sendRequestResult = Except.ok s → s ≠ 200 → t.bodyReadResult = Except.error e →
        (shutdown_portforward t a p c).result = Except.error e) := by
  refine ⟨?_, ?_, ?_, ?_, ?_, ?_⟩
  · intro e h
    simp [shutdown_portforward, h]
  · intro e h1 h2
    simp [shutdown_portforward, h1, h2]
  · intro e h1 h2 h3
    simp [shutdown_portforward, h1, h2, h3]
  · intro h1 h2 h3
    simp [shutdown_portforward, h1, h2, h3]
  · intro s b h1 h2 h3 hs h4
    simp [shutdown_portforward, h1, h2, h3, hs, h4]
  · intro s e h1 h2 h3 hs h4
    simp [shutdown_portforward, h1, h2, h3, hs, h4]

/-- Witness for `c2_portforward_classification` at a completed exchange
with status 503 and readable body. -/
theorem c2_portforward_classification_witness :
    (shutdown_portforward c2Transport istioAction "pod-1" "istio-proxy").result =
      Except.ok () ∧
    (shutdown_portforward c2Transport istioAction "pod-1" "istio-proxy").logs.map
      LogEntry.level = [LogLevel.error] :=
  (c2_portforward_classification c2Transport istioAction "pod-1" "istio-proxy").2.2.2.2.1
    503 "service unavailable" rfl rfl rfl (by decide) rfl

/-- Transport on which every call succeeds and the HTTP exchange returns
status 200. -/
def allOkTransport : Transport :=
  { execResult := Except.ok (), portforwardResult := Except.ok (),
    handshakeResult := Except.ok (), sendRequestResult := Except.ok 200,
    bodyReadResult := Except.ok "" }

/-- A running sidecar whose name is in no registry entry. -/
def c3Sidecar : SidecarObs :=
  { name := "unknown-sidecar", transport := allOkTransport,
    publishResult := Except.ok () }

/-- C3: for a running sidecar whose name is absent from the registry the
loop never dispatches — and, contrary to the claim and to the purpose of
the `hahaha_unsupported_sidecars` counter registered in `prometheus.rs`,
it increments no counter at all: the unsupported counter stays untouched
(the source only logs a warning and continues). -/
theorem c3_unsupported_no_counter :
    lookupAction generate "unknown-sidecar" = none ∧
    (processSidecar generate "pod-1" "default" "job-1" state0 c3Sidecar).dispatchCalls
      = [] ∧
    (processSidecar generate "pod-1" "default" "job-1" state0 c3Sidecar).counters.unsupported_sidecars
      = [] ∧
    (processSidecar generate "pod-1" "default" "job-1" state0 c3Sidecar).counters
      = state0.counters ∧
    (processSidecar generate "pod-1" "default" "job-1" state0 c3Sidecar).publishAttempts
      = [] :=
  ⟨rfl, rfl, rfl, rfl, rfl⟩

/-- C4: for a recognized sidecar whose dispatch returns a transport
failure, the loop attempts exactly one warning-event publish, increments
the failure counter exactly once with labels (container, job, namespace),
leaves the success and unsupported counters unchanged, and — only when the
publish attempt itself fails — increments the process-wide event-post
counter exactly once, without aborting (the failure counter increment
still happens). -/
theorem c4_transport_failure_reporting
    (acts : List (String × Action)) (p ns job : String) (st : LoopState)
    (s : SidecarObs) (a : Action) (err : String)
    (hl : lookupAction acts s.name = some a)
    (hd : (shutdown s.transport a p s.name).result = Except.error err) :
    (processSidecar acts p ns job st s).publishAttempts = st.publishAttempts ++
      [Event.mk EventKind.warn
        ("Unsuccessfully shut down container " ++ s.name ++ ": " ++ err)] ∧
    (processSidecar acts p ns job st s).counters.failed_sidecar_shutdowns =
      st.counters.failed_sidecar_shutdowns ++ [(s.name, job, ns)] ∧
    (processSidecar acts p ns job st s).counters.sidecar_shutdowns =
      st.counters.sidecar_shutdowns ∧
    (processSidecar acts p ns job st s).counters.unsupported_sidecars =
      st.counters.unsupported_sidecars ∧
    (s.publishResult = Except.ok () →
      (processSidecar acts p ns job st s).counters.total_unsuccessful_event_posts =
        st.counters.total_unsuccessful_event_posts) ∧
    (∀ e, s.publishResult = Except.error e →
      (processSidecar acts p ns job st s).counters.total_unsuccessful_event_posts =
        st.counters.total_unsuccessful_event_posts + 1) := by
  refine ⟨?_, ?_, ?_, ?_, ?_, ?_⟩ <;>
    cases hp : s.publishResult <;> simp [processSidecar, hl, hd, hp]

/-- Sidecar recognized as `istio-proxy`, whose port-forward acquisition
fails and whose audit publish also fails. -/
def c4Sidecar : SidecarObs :=
  { name := "istio-proxy",
    transport :=
      { execResult := Except.ok (), portforwardResult := Except.error "tunnel down",
        handshakeResult := Except.ok (), sendRequestResult := Except.ok 200,
        bodyReadResult := Except.ok "" },
    publishResult := Except.error "api down" }

/-- Witness for `c4_transport_failure_reporting` at a concrete failed
dispatch with a failing publish. -/
theorem c4_transport_failure_reporting_witness :
    (processSidecar generate "pod-1" "ns-1" "job-1" state0 c4Sidecar).counters.failed_sidecar_shutdowns
      = [("istio-proxy", "job-1", "ns-1")] ∧
    (processSidecar generate "pod-1" "ns-1" "job-1" state0 c4Sidecar).counters.total_unsuccessful_event_posts
      = 1 :=
  ⟨(c4_transport_failure_reporting generate "pod-1" "ns-1" "job-1" state0 c4Sidecar
      istioAction "tunnel down" rfl rfl).2.1,
   (c4_transport_failure_reporting generate "pod-1" "ns-1" "job-1" state0 c4Sidecar
      istioAction "tunnel down" rfl rfl).2.2.2.2.2 "api down" rfl⟩

/-- Sidecar recognized as `linkerd-proxy`, whose dispatch succeeds but
whose audit publish fails. -/
def c5Sidecar : SidecarObs :=
  { name := "linkerd-proxy", transport := allOkTransport,
    publishResult := Except.error "event api down" }

/-- C5: the claim says every Success outcome increments the success
counter exactly once. Refuted: at a successful dispatch whose
informational publish fails, the loop logs the publish error and
continues without incrementing the success counter (it stays empty),
although the one informational publish was attempted. -/
theorem c5_counterexample :
    (shutdown c5Sidecar.transport linkerdAction "pod-1" "linkerd-proxy").result =
      Except.ok () ∧
    (processSidecar generate "pod-1" "default" "job-1" state0 c5Sidecar).publishAttempts =
      [Event.mk EventKind.info "Shut down container linkerd-proxy"] ∧
    (processSidecar generate "pod-1" "default" "job-1" state0 c5Sidecar).counters.sidecar_shutdowns
      = [] :=
  ⟨rfl, rfl, rfl⟩

/-- C5 (amended): for a recognized sidecar whose dispatch succeeds, the
loop attempts exactly one informational publish; the success counter is
incremented exactly once with labels (container, job, namespace) when the
publish succeeds (all other counters unchanged), and no counter at all is
touched when the publish fails. -/
theorem c5_success_reporting
    (acts : List (String × Action)) (p ns job : String) (st : LoopState)
    (s : SidecarObs) (a : Action)
    (hl : lookupAction acts s.name = some a)
    (hd : (shutdown s.transport a p s.name).result = Except.ok ()) :
    (processSidecar acts p ns job st s).publishAttempts = st.publishAttempts ++
      [Event.mk EventKind.info ("Shut down container " ++ s.name)] ∧
    (s.publishResult = Except.ok () →
      (processSidecar acts p ns job st s).counters =
        { st.counters with sidecar_shutdowns :=
            st.counters.sidecar_shutdowns ++ [(s.name, job, ns)] }) ∧
    (∀ e, s.publishResult = Except.error e →
      (processSidecar acts p ns job st s).counters = st.counters) := by
  refine ⟨?_, ?_, ?_⟩
  · cases hp : s.publishResult <;> simp [processSidecar, hl, hd, hp]
  · intro h
    simp [processSidecar, hl, hd, h]
  · intro e h
    simp [processSidecar, hl, hd, h]

/-- Sidecar recognized as `linkerd-proxy`, dispatch and publish both
succeeding. -/
def c5GoodSidecar : SidecarObs :=
  { name := "linkerd-proxy", transport := allOkTransport,
    publishResult := Except.ok () }

/-- Witness for `c5_success_reporting`, both at a succeeding and at a
failing publish. -/
theorem c5_success_reporting_witness :
    (processSidecar generate "pod-1" "ns-1" "job-1" state0 c5GoodSidecar).counters =
      { state0.counters with sidecar_shutdowns := [("linkerd-proxy", "job-1", "ns-1")] } ∧
    (processSidecar generate "pod-1" "ns-1" "job-1" state0 c5Sidecar).counters =
      state0.counters :=
  ⟨(c5_success_reporting generate "pod-1" "ns-1" "job-1" state0 c5GoodSidecar
      linkerdAction rfl rfl).2.1 rfl,
   (c5_success_reporting generate "pod-1" "ns-1" "job-1" state0 c5Sidecar
      linkerdAction rfl rfl).2.2 "event api down" rfl⟩

/-- C6: the claim says a watch-stream error terminates the process only
after the metrics-task shutdown signal is raised and the task is awaited.
Refuted: at a stream that errors immediately, `main` returns the error
with the shutdown signal never raised and the metrics task never
awaited — the `?` on `try_next` skips the epilogue. -/
theorem c6_counterexample :
    (runMain generate state0 [Except.error "watch stream failed"]).result =
      Except.error "watch stream failed" ∧
    (runMain generate state0 [Except.error "watch stream failed"]).notified = false ∧
    (runMain generate state0 [Except.error "watch stream failed"]).promAwaited = false :=
  ⟨rfl, rfl, rfl⟩

/-- C6 (amended): a stream error after any number of delivered pods is
fatal — `main` returns that error — but the metrics-task shutdown signal
is not raised and the metrics task is not awaited; the notify/await
epilogue runs only when the stream ends without error. -/
theorem c6_stream_error_skips_graceful_shutdown
    (acts : List (String × Action)) (st : LoopState) (pods : List PodObs)
    (e : String) (rest : List (Except String PodObs)) :
    ((runMain acts st (pods.map Except.ok ++ Except.error e :: rest)).result =
        Except.error e ∧
      (runMain acts st (pods.map Except.ok ++ Except.error e :: rest)).notified =
        false ∧
      (runMain acts st (pods.map Except.ok ++ Except.error e :: rest)).promAwaited =
        false) ∧
    ((runMain acts st (pods.map Except.ok)).result = Except.ok () ∧
      (runMain acts st (pods.map Except.ok)).notified = true ∧
      (runMain acts st (pods.map Except.ok)).promAwaited = true) := by
  induction pods generalizing st with
  | nil => exact ⟨⟨rfl, rfl, rfl⟩, ⟨rfl, rfl, rfl⟩⟩
  | cons pod pods ih =>
      simpa [runMain] using ih (processPod acts st pod)

/-- C7: a pod snapshot whose extracted running-sidecar list is empty
short-circuits the iteration: the loop state is returned unchanged — no
registry lookup, no dispatch call, no publish attempt, no counter
increment, not even a log line. -/
theorem c7_no_running_sidecars_no_work
    (acts : List (String × Action)) (st : LoopState) (pod : PodObs)
    (h : pod.sidecarsResult = Except.ok []) :
    processPod acts st pod = st := by
  simp [processPod, h]

/-- Pod whose sidecar extraction yields the empty list. -/
def c7Pod : PodObs :=
  { pod_name := "pod-7", nspace := some "ns-7",
    sidecarsResult := Except.ok [], jobNameResult := Except.ok "job-7" }

/-- Witness for `c7_no_running_sidecars_no_work` at a concrete pod. -/
theorem c7_no_running_sidecars_no_work_witness :
    c7Pod.sidecarsResult = Except.ok [] ∧ processPod generate state0 c7Pod = state0 :=
  ⟨rfl, c7_no_running_sidecars_no_work generate state0 c7Pod rfl⟩

/-- C8: with two recognized running sidecars in one pod where the first
dispatch fails and the second succeeds (and the second publish succeeds),
both are dispatched in extraction order, the failure counter gains
exactly the first sidecar's label triple and the success counter exactly
the second's. -/
theorem c8_failure_does_not_stop_processing
    (acts : List (String × Action)) (st : LoopState) (pod : PodObs)
    (s1 s2 : SidecarObs) (a1 a2 : Action) (job err : String)
    (hs : pod.sidecarsResult = Except.ok [s1, s2])
    (hj : pod.jobNameResult = Except.ok job)
    (h1 : lookupAction acts s1.name = some a1)
    (h2 : lookupAction acts s2.name = some a2)
    (hd1 : (shutdown s1.transport a1 pod.pod_name s1.name).result = Except.error err)
    (hd2 : (shutdown s2.transport a2 pod.pod_name s2.name).result = Except.ok ())
    (hp2 : s2.publishResult = Except.ok ()) :
    (processPod acts st pod).dispatchCalls = st.dispatchCalls ++ [s1.name, s2.name] ∧
    (processPod acts st pod).counters.failed_sidecar_shutdowns =
      st.counters.failed_sidecar_shutdowns ++
        [(s1.name, job, pod.nspace.getD "default")] ∧
    (processPod acts st pod).counters.sidecar_shutdowns =
      st.counters.sidecar_shutdowns ++ [(s2.name, job, pod.nspace.getD "default")] := by
  cases hp1 : s1.publishResult <;>
    simp [processPod, processSidecar, hs, hj, h1, h2, hd1, hd2, hp1, hp2]

/-- First sidecar of the C8 pod: `istio-proxy`, port-forward acquisition
fails, publish succeeds. -/
def c8Sidecar1 : SidecarObs :=
  { name := "istio-proxy",
    transport :=
      { execResult := Except.ok (), portforwardResult := Except.error "tunnel down",
        handshakeResult := Except.ok (), sendRequestResult := Except.ok 200,
        bodyReadResult := Except.ok "" },
    publishResult := Except.ok () }

/-- Second sidecar of the C8 pod: `linkerd-proxy`, everything succeeds. -/
def c8Sidecar2 : SidecarObs :=
  { name := "linkerd-proxy", transport := allOkTransport,
    publishResult := Except.ok () }

/-- Pod with two recognized running sidecars, the first of which will
fail to dispatch. -/
def c8Pod : PodObs :=
  { pod_name := "pod-8", nspace := some "ns-8",
    sidecarsResult := Except.ok [c8Sidecar1, c8Sidecar2],
    jobNameResult := Except.ok "job-8" }

/-- Witness for `c8_failure_does_not_stop_processing` on the concrete
two-sidecar pod. -/
theorem c8_failure_does_not_stop_processing_witness :
    (processPod generate state0 c8Pod).dispatchCalls =
      ["istio-proxy", "linkerd-proxy"] ∧
    (processPod generate state0 c8Pod).counters.failed_sidecar_shutdowns =
      [("istio-proxy", "job-8", "ns-8")] ∧
    (processPod generate state0 c8Pod).counters.sidecar_shutdowns =
      [("linkerd-proxy", "job-8", "ns-8")] :=
  c8_failure_does_not_stop_processing generate state0 c8Pod c8Sidecar1 c8Sidecar2
    istioAction linkerdAction "job-8" "tunnel down" rfl rfl rfl rfl rfl rfl rfl

/-- C9: a pod without a namespace is processed exactly as if its
namespace were the fixed default "default"; and a pod with running
sidecars whose workload identifier (job name) cannot be derived is
skipped entirely with a warning — only the two log lines are added and no
lookup, dispatch, publish or counter increment happens. -/
theorem c9_namespace_default_and_jobname_skip
    (acts : List (String × Action)) (st : LoopState) (pod : PodObs) :
    (pod.nspace = none →
      processPod acts st pod = processPod acts st { pod with nspace := some "default" }) ∧
    (∀ l e, pod.sidecarsResult = Except.ok l → l ≠ [] →
      pod.jobNameResult = Except.error e →
      processPod acts st pod = { st with logs := st.logs ++
        [LogEntry.mk LogLevel.info
          (pod.pod_name ++ " in namespace " ++ pod.nspace.getD "default" ++
            " needs help shutting down some residual containers!"),
         LogEntry.mk LogLevel.warn ("Getting job name from pod: " ++ e)] }) := by
  constructor
  · intro h
    simp [processPod, h]
  · intro l e hs hl hj
    cases l with
    | nil => exact absurd rfl hl
    | cons x xs => simp [processPod, hs, hj]

/-- Sidecar used by the C9 pod (never reached, as the job name fails). -/
def c9Sidecar : SidecarObs :=
  { name := "istio-proxy", transport := allOkTransport,
    publishResult := Except.ok () }

/-- Pod without a namespace whose job-name derivation fails. -/
def c9Pod : PodObs :=
  { pod_name := "pod-9", nspace := none,
    sidecarsResult := Except.ok [c9Sidecar],
    jobNameResult := Except.error "no job owner" }

/-- Witness for `c9_namespace_default_and_jobname_skip` on a concrete
namespace-less pod with an underivable job name. -/
theorem c9_namespace_default_and_jobname_skip_witness :
    processPod generate state0 c9Pod =
      processPod generate state0 { c9Pod with nspace := some "default" } ∧
    processPod generate state0 c9Pod = { state0 with logs :=
      [LogEntry.mk LogLevel.info
        "pod-9 in namespace default needs help shutting down some residual containers!",
       LogEntry.mk LogLevel.warn "Getting job name from pod: no job owner"] } :=
  ⟨(c9_namespace_default_and_jobname_skip generate state0 c9Pod).1 rfl,
   (c9_namespace_default_and_jobname_skip generate state0 c9Pod).2
     [c9Sidecar] "no job owner" rfl (List.cons_ne_nil _ _) rfl⟩

/-- C10: when sidecar extraction itself fails, the loop logs the error at
info level, treats the result as the empty list — the pod is skipped with
no lookup, dispatch, publish or counter change — and the stream loop
continues with the remaining items instead of aborting. -/
theorem c10_extract_error_treated_as_empty
    (acts : List (String × Action)) (st : LoopState) (pod : PodObs) (err : String)
    (h : pod.sidecarsResult = Except.error err) :
    processPod acts st pod = { st with logs := st.logs ++
      [LogEntry.mk LogLevel.info
        ("Getting running sidecars for " ++ pod.pod_name ++ ": " ++ err)] } ∧
    (∀ rest, runMain acts st (Except.ok pod :: rest) =
      runMain acts ({ st with logs := st.logs ++
        [LogEntry.mk LogLevel.info
          ("Getting running sidecars for " ++ pod.pod_name ++ ": " ++ err)] }) rest) := by
  have hp : processPod acts st pod = { st with logs := st.logs ++
      [LogEntry.mk LogLevel.info
        ("Getting running sidecars for " ++ pod.pod_name ++ ": " ++ err)] } := by
    simp [processPod, h]
  refine ⟨hp, ?_⟩
  intro rest
  simp [runMain, hp]

/-- Pod whose sidecar extraction fails. -/
def c10Pod : PodObs :=
  { pod_name := "pod-10", nspace := some "ns-10",
    sidecarsResult := Except.error "missing container statuses",
    jobNameResult := Except.ok "job-10" }

/-- Witness for `c10_extract_error_treated_as_empty` at a concrete
failing extraction. -/
theorem c10_extract_error_treated_as_empty_witness :
    processPod generate state0 c10Pod = { state0 with logs :=
      [LogEntry.mk LogLevel.info
        "Getting running sidecars for pod-10: missing container statuses"] } ∧
    runMain generate state0 [Except.ok c10Pod] =
      runMain generate ({ state0 with logs :=
        [LogEntry.mk LogLevel.info
          "Getting running sidecars for pod-10: missing container statuses"] }) [] :=
  ⟨(c10_extract_error_treated_as_empty generate state0 c10Pod
      "missing container statuses" rfl).1,
   (c10_extract_error_treated_as_empty generate state0 c10Pod
      "missing container statuses" rfl).2 []⟩

end Hahaha
